import Mathlib

/-!
Verification of the authentication and authorization core of a
JWT-authenticated task-management REST API (FastAPI + SQLModel backend).

The embedding below follows the backend source:
  src/backend/src/config.py              — Settings
  src/backend/src/auth/jwt.py            — create_access_token, verify_token
  src/backend/src/auth/password.py       — hash_password, verify_password
  src/backend/src/auth/dependencies.py   — get_current_user
  src/backend/src/errors.py              — error constants
  src/backend/src/routes/auth.py         — register, login
  src/backend/src/routes/tasks.py        — get_task, create_task, update_task, delete_task
  src/backend/src/models/{task,user}.py  — Task, User rows
  src/backend/src/schemas/task.py        — TaskCreate, TaskUpdate

External collaborators (python-jose's HMAC signing, bcrypt, FastAPI's
HTTPBearer header extraction) are not part of this repository; where a
claim depends on them they are modelled from the spec, and each such
definition is marked `Modelled from the spec:` in its doc comment.
Wall-clock time is passed explicitly as an integer Unix timestamp; the
random salt and generated UUIDs are passed explicitly as parameters.
-/

namespace TodoApp

/-- Application configuration (config.py `Settings`).  Only the fields the
auth core reads are embedded: `secret_key` is the `better_auth_secret`
alias, `jwt_algorithm` defaults to HS256, `jwt_expiration_hours` defaults
to 24. -/
structure Settings where
  secret_key : String
  jwt_algorithm : String := "HS256"
  jwt_expiration_hours : Int := 24
deriving DecidableEq, Repr

/-- Standardized error payload produced by the helpers in errors.py
(`raise_unauthorized`, `raise_not_found`, `raise_conflict`,
`raise_bad_request`) and by the inline HTTPException in routes/auth.py:
an HTTP status code plus the `error` code and `message` of the JSON body. -/
structure ApiError where
  status : Nat
  error : String
  message : String
deriving DecidableEq, Repr

/-- JWT claims dictionary as built by `create_access_token` and returned
by `verify_token` (jwt.py).  `sub` and `email` are optional because a
decoded payload is a dict that may lack them; `iat` and `exp` are Unix
timestamps. -/
structure TokenPayload where
  sub : Option String
  email : Option String
  iat : Int
  exp : Int
deriving DecidableEq, Repr

/-- Modelled from the spec: the HMAC-SHA256 signature python-jose attaches
to a token (§4.2 "signed ... using a symmetric secret and a fixed signing
algorithm").  Idealized as a collision-free MAC: the signature value is
determined by, and determines, the algorithm, the secret, and the signed
payload. -/
structure Sig where
  alg : String
  secret : String
  signed : TokenPayload
deriving DecidableEq, Repr

/-- Modelled from the spec: producing the signature over a serialized
payload (python-jose `jwt.encode` internals). -/
def signPayload (alg secret : String) (p : TokenPayload) : Sig :=
  ⟨alg, secret, p⟩

/-- Wire-format token string: either a structurally well-formed JWT
carrying a claims payload and a signature, or a string that does not parse
as a JWT at all (python-jose raises `JWTError` on the latter). -/
inductive RawToken where
  | jwt (payload : TokenPayload) (sig : Sig)
  | malformed (raw : String)
deriving DecidableEq, Repr

/-- jwt.py `create_access_token`: builds the claims dict with
`sub = user_id`, `email`, `iat = now`, `exp = now + jwt_expiration_hours`
and signs it with the process-wide secret.  `now` is the integer Unix
timestamp of `datetime.utcnow()`. -/
def create_access_token (cfg : Settings) (now : Int) (user_id email : String) : RawToken :=
  let exp := now + cfg.jwt_expiration_hours * 3600
  let payload : TokenPayload := ⟨some user_id, some email, now, exp⟩
  .jwt payload (signPayload cfg.jwt_algorithm cfg.secret_key payload)

/-- jwt.py `verify_token`: decodes and verifies in one step, returning
`none` (never raising) when the token is malformed, the signature does not
match the configured algorithm and secret, or the token is expired
(current time at or past `exp`); otherwise returns the payload. -/
def verify_token (cfg : Settings) (now : Int) (t : RawToken) : Option TokenPayload :=
  match t with
  | .malformed _ => none
  | .jwt p sig =>
      if sig = signPayload cfg.jwt_algorithm cfg.secret_key p ∧ now < p.exp then
        some p
      else
        none

/-- errors.py `raise_unauthorized` with the message used by
dependencies.py when `verify_token` returns None. -/
def invalidTokenError : ApiError :=
  ⟨401, "UNAUTHORIZED", "Missing or invalid authentication token"⟩

/-- errors.py `raise_unauthorized` with the message used by
dependencies.py when the payload lacks a usable `sub` claim. -/
def invalidTokenStructureError : ApiError :=
  ⟨401, "UNAUTHORIZED", "Invalid token structure"⟩

/-- Modelled from the spec: the rejection FastAPI's `HTTPBearer` scheme
(dependencies.py `security`) produces when no bearer credential is present;
§4.3 "If absent: reject with an UNAUTHORIZED outcome (no payload)". -/
def missingCredentialError : ApiError :=
  ⟨401, "UNAUTHORIZED", "Not authenticated"⟩

/-- dependencies.py `get_current_user`: `creds` is the bearer credential
extracted by `HTTPBearer` (`none` when the Authorization header is absent —
that extraction step is modelled from the spec, see `missingCredentialError`).
With a credential present, the body follows the source: verify the token
(`none` payload rejects 401), read `payload.get("sub")` and reject 401 when
it is falsy (absent or the empty string), otherwise return the user id. -/
def get_current_user (cfg : Settings) (now : Int) (creds : Option RawToken) :
    Except ApiError String :=
  match creds with
  | none => .error missingCredentialError
  | some tok =>
      match verify_token cfg now tok with
      | none => .error invalidTokenError
      | some payload =>
          match payload.sub with
          | none => .error invalidTokenStructureError
          | some uid =>
              if uid = "" then .error invalidTokenStructureError
              else .ok uid

/-- Modelled from the spec: a bcrypt digest (§4.1 "recomputes using the
salt/cost embedded in the hash and compares").  Idealized as collision-free:
the digest value is determined by, and determines, the cost, the salt and
the hashed password. -/
structure Digest where
  cost : Nat
  salt : Nat
  pw : String
deriving DecidableEq, Repr

/-- Modelled from the spec: computing the bcrypt digest for a password
under a given cost and salt (bcrypt `hashpw` internals). -/
def bcryptDigest (cost salt : Nat) (pw : String) : Digest :=
  ⟨cost, salt, pw⟩

/-- The stored password-hash string: either a well-formed bcrypt hash
`$2b$<cost>$<salt><digest>` that self-describes its cost and salt, or a
string in no recognized hash format (on which bcrypt `checkpw` raises). -/
inductive OpaqueHash where
  | bcryptFormat (cost salt : Nat) (digest : Digest)
  | foreign (raw : String)
deriving DecidableEq, Repr

/-- password.py `hash_password`: `bcrypt.gensalt(rounds=12)` followed by
`bcrypt.hashpw`.  The freshly drawn random salt is passed explicitly. -/
def hash_password (salt : Nat) (password : String) : OpaqueHash :=
  .bcryptFormat 12 salt (bcryptDigest 12 salt password)

/-- Modelled from the spec: bcrypt `checkpw` — recomputes the digest with
the cost and salt embedded in the stored hash and compares in constant
time; raises (here `Except.error`) on a malformed or foreign-format hash. -/
def checkpw (password : String) (h : OpaqueHash) : Except Unit Bool :=
  match h with
  | .foreign _ => .error ()
  | .bcryptFormat cost salt digest => .ok (bcryptDigest cost salt password = digest)

/-- password.py `verify_password`: delegates to `checkpw` inside
`try ... except Exception: return False`, so a format error is returned as
`false`, indistinguishable from a mismatch. -/
def verify_password (plain_password : String) (hashed_password : OpaqueHash) : Bool :=
  match checkpw plain_password hashed_password with
  | .error _ => false
  | .ok b => b

/-- Task row (models/task.py `Task`).  Dates are embedded as day ordinals
(`Option Nat`), timestamps as integer Unix seconds.  `title` and
`is_completed` are nullable in the Python object model (a PUT body may
explicitly carry `null`, which `setattr` writes through); the create path
always stores concrete values for them. -/
structure Task where
  id : String
  user_id : String
  title : Option String
  description : Option String
  due_date : Option Nat
  is_completed : Option Bool
  created_at : Int
  updated_at : Int
deriving DecidableEq, Repr

/-- User row (models/user.py `User`).  The `password_hash` column holds the
opaque bcrypt string. -/
structure User where
  id : String
  email : String
  password_hash : OpaqueHash
  created_at : Int
deriving DecidableEq, Repr

/-- schemas/task.py `TaskCreate`: the request body for POST /api/tasks.
It has exactly these four fields — there is no owner/user field, so the
client has no channel to supply one. -/
structure TaskCreate where
  title : String
  description : Option String := none
  due_date : Option Nat := none
  is_completed : Bool := false
deriving DecidableEq, Repr

/-- schemas/task.py `TaskUpdate`: every field optional for partial updates.
The outer `Option` records whether the field was explicitly present in the
request body (`model_dump(exclude_unset=True)` keeps exactly the explicitly
set fields); the inner `Option` is the value itself, `none` for an explicit
JSON `null`. -/
structure TaskUpdate where
  title : Option (Option String) := none
  description : Option (Option String) := none
  due_date : Option (Option Nat) := none
  is_completed : Option (Option Bool) := none
deriving DecidableEq, Repr

/-- The update body with no field set: `model_dump(exclude_unset=True)`
returns the empty dict. -/
def TaskUpdate.empty : TaskUpdate := ⟨none, none, none, none⟩

/-- Whether `model_dump(exclude_unset=True)` is the empty dict (the
`if not update_data` check in `update_task`). -/
def TaskUpdate.isEmpty (u : TaskUpdate) : Bool :=
  u.title.isNone && u.description.isNone && u.due_date.isNone && u.is_completed.isNone

/-- errors.py `raise_not_found("Task not found")` as raised by the task
routes when the id+owner query matches no row. -/
def taskNotFoundError : ApiError :=
  ⟨404, "NOT_FOUND", "Task not found"⟩

/-- errors.py `raise_bad_request("At least one field required")`. -/
def noFieldsError : ApiError :=
  ⟨400, "VALIDATION_ERROR", "At least one field required"⟩

/-- errors.py `raise_bad_request("Title is required")`. -/
def titleRequiredError : ApiError :=
  ⟨400, "VALIDATION_ERROR", "Title is required"⟩

/-- The ownership-filtered lookup shared by the read-one, update and delete
routes (routes/tasks.py): `select(Task).where(Task.id == task_id,
Task.user_id == current_user_id)` followed by `.first()`. -/
def findTask (db : List Task) (task_id current_user_id : String) : Option Task :=
  db.find? (fun t => t.id == task_id && t.user_id == current_user_id)

/-- Committing a mutated task object back to the store: the row with the
task's primary key is replaced (SQLModel session identity is by primary
key). -/
def saveTask (db : List Task) (t : Task) : List Task :=
  db.map (fun r => if r.id == t.id then t else r)

/-- routes/tasks.py `get_tasks` (GET /api/tasks): all tasks whose owner is
the authenticated user; the empty list is a success. -/
def get_tasks (db : List Task) (current_user_id : String) : List Task :=
  db.filter (fun t => t.user_id == current_user_id)

/-- routes/tasks.py `get_task` (GET /api/tasks/:id): lookup conjoining id
and owner; 404 when no row matches. -/
def get_task (db : List Task) (task_id current_user_id : String) :
    Except ApiError Task :=
  match findTask db task_id current_user_id with
  | none => .error taskNotFoundError
  | some t => .ok t

/-- Python `str.strip()`: the string with leading and trailing whitespace
removed. -/
def pyStrip (s : String) : String :=
  String.mk (((s.data.dropWhile Char.isWhitespace).reverse.dropWhile Char.isWhitespace).reverse)

/-- routes/tasks.py `create_task` (POST /api/tasks): reject an empty or
whitespace-only title with 400, otherwise insert a row owned by the
authenticated user with both timestamps set to `now`.  The generated UUID
is passed as `newId`.  Returns the handler outcome paired with the
resulting store. -/
def create_task (db : List Task) (current_user_id : String) (req : TaskCreate)
    (newId : String) (now : Int) : Except ApiError Task × List Task :=
  if req.title = "" ∨ pyStrip req.title = "" then
    (.error titleRequiredError, db)
  else
    let t : Task :=
      { id := newId
        user_id := current_user_id
        title := some req.title
        description := req.description
        due_date := req.due_date
        is_completed := some req.is_completed
        created_at := now
        updated_at := now }
    (.ok t, db ++ [t])

/-- Applying `for field, value in update_data.items(): setattr(task, field,
value)`: each explicitly present field overwrites the stored value (an
explicit `null` overwrites with `none`); absent fields are untouched. -/
def applyUpdate (t : Task) (u : TaskUpdate) : Task :=
  { t with
    title := u.title.getD t.title
    description := u.description.getD t.description
    due_date := u.due_date.getD t.due_date
    is_completed := u.is_completed.getD t.is_completed }

/-- routes/tasks.py `update_task` (PUT /api/tasks/:id): ownership-filtered
lookup (404 on no match), then the at-least-one-field check (400), then the
partial update with `updated_at` refreshed to `now` and `created_at` left
untouched.  Returns the handler outcome paired with the resulting store. -/
def update_task (db : List Task) (task_id current_user_id : String)
    (req : TaskUpdate) (now : Int) : Except ApiError Task × List Task :=
  match findTask db task_id current_user_id with
  | none => (.error taskNotFoundError, db)
  | some task =>
      if req.isEmpty then
        (.error noFieldsError, db)
      else
        let t := { applyUpdate task req with updated_at := now }
        (.ok t, saveTask db t)

/-- routes/tasks.py `delete_task` (DELETE /api/tasks/:id):
ownership-filtered lookup (404 on no match), then permanent deletion of the
row.  Returns the success message paired with the resulting store. -/
def delete_task (db : List Task) (task_id current_user_id : String) :
    Except ApiError String × List Task :=
  match findTask db task_id current_user_id with
  | none => (.error taskNotFoundError, db)
  | some task =>
      (.ok "Task deleted successfully", db.filter (fun r => r.id != task.id))

/-- schemas/auth.py `RegisterRequest` (email format and the ≥8-character
password rule are enforced by the schema layer before the handler runs). -/
structure RegisterRequest where
  email : String
  password : String
deriving DecidableEq, Repr

/-- schemas/auth.py `LoginRequest`. -/
structure LoginRequest where
  email : String
  password : String
deriving DecidableEq, Repr

/-- schemas/auth.py `UserResponse`: the public identity returned by
register and login. -/
structure UserResponse where
  id : String
  email : String
deriving DecidableEq, Repr

/-- schemas/auth.py `AuthResponse`: identity plus freshly issued token. -/
structure AuthResponse where
  user : UserResponse
  token : RawToken
deriving DecidableEq, Repr

/-- errors.py `raise_conflict("Email already registered")`. -/
def emailExistsError : ApiError :=
  ⟨409, "EMAIL_EXISTS", "Email already registered"⟩

/-- The inline HTTPException raised by routes/auth.py `login` for both
failure causes: generic message, never revealing whether the email
existed. -/
def invalidCredentialsError : ApiError :=
  ⟨401, "INVALID_CREDENTIALS", "Invalid email or password"⟩

/-- routes/auth.py `register` (POST /api/auth/register): duplicate-email
check (exact, case-sensitive string equality) before any write; on the
fresh path hash the password, insert the user row, issue a token.  The
generated UUID and the bcrypt salt are passed explicitly.  Returns the
handler outcome paired with the resulting user store. -/
def register (users : List User) (req : RegisterRequest) (newId : String)
    (salt : Nat) (cfg : Settings) (now : Int) :
    Except ApiError AuthResponse × List User :=
  match users.find? (fun u => u.email == req.email) with
  | some _ => (.error emailExistsError, users)
  | none =>
      let newUser : User :=
        { id := newId
          email := req.email
          password_hash := hash_password salt req.password
          created_at := now }
      let token := create_access_token cfg now newUser.id newUser.email
      (.ok ⟨⟨newUser.id, newUser.email⟩, token⟩, users ++ [newUser])

/-- routes/auth.py `login` (POST /api/auth/login): look up by email; if the
user is absent or password verification fails, raise the one generic
INVALID_CREDENTIALS error; otherwise issue a token. -/
def login (users : List User) (req : LoginRequest) (cfg : Settings) (now : Int) :
    Except ApiError AuthResponse :=
  match users.find? (fun u => u.email == req.email) with
  | none => .error invalidCredentialsError
  | some user =>
      if verify_password req.password user.password_hash then
        .ok ⟨⟨user.id, user.email⟩, create_access_token cfg now user.id user.email⟩
      else
        .error invalidCredentialsError

/-! ### Helper lemmas about the ownership-filtered lookup -/

/-- A hit of the id+owner query lies in the store and satisfies both
conjuncts of the filter. -/
theorem findTask_some {db : List Task} {tid uid : String} {t : Task}
    (h : findTask db tid uid = some t) :
    t ∈ db ∧ t.id = tid ∧ t.user_id = uid := by
  have hmem := List.mem_of_find?_eq_some h
  have hp := List.find?_some h
  simp only [Bool.and_eq_true, beq_iff_eq] at hp
  exact ⟨hmem, hp.1, hp.2⟩

/-- The id+owner query misses exactly when no stored task satisfies the
conjunction. -/
theorem findTask_eq_none {db : List Task} {tid uid : String} :
    findTask db tid uid = none ↔ ∀ t ∈ db, ¬(t.id = tid ∧ t.user_id = uid) := by
  simp [findTask, List.find?_eq_none, not_and]

/-! ### Claims -/

/-- Claim C3: for every subject string s and email string e, verifying a
token immediately after it is issued — same clock time, same process-wide
secret — succeeds and returns a payload whose subject claim equals s and
whose email claim equals e.  (The configured token lifetime is positive, as
in the default 24-hour configuration.) -/
theorem token_round_trip (cfg : Settings) (now : Int) (s e : String)
    (httl : 0 < cfg.jwt_expiration_hours) :
    verify_token cfg now (create_access_token cfg now s e) =
      some { sub := some s, email := some e, iat := now,
             exp := now + cfg.jwt_expiration_hours * 3600 } := by
  have hexp : now < now + cfg.jwt_expiration_hours * 3600 := by
    have : (0 : Int) < cfg.jwt_expiration_hours * 3600 := by positivity
    omega
  simp [verify_token, create_access_token, hexp]

/-- Witness for C3 at a concrete configuration: the default 24-hour TTL. -/
theorem token_round_trip_witness :
    verify_token ⟨"secret-0123456789", "HS256", 24⟩ 1000
        (create_access_token ⟨"secret-0123456789", "HS256", 24⟩ 1000 "user-1" "a@b.c") =
      some { sub := some "user-1", email := some "a@b.c", iat := 1000,
             exp := 1000 + 24 * 3600 } :=
  token_round_trip ⟨"secret-0123456789", "HS256", 24⟩ 1000 "user-1" "a@b.c" (by decide)

/-- Claim C4: verify_token is a total function into an option type — it
never raises to its caller — and returns the single sentinel `none` for a
structurally malformed token, for a signature that does not match the
process-wide secret and algorithm, and for a token whose `exp` is at or
before the current time; a token issued with a non-positive TTL (already
expired) therefore fails verification, and all three failure causes yield
the identical value, indistinguishable to the caller. -/
theorem verify_token_total_uniform (cfg : Settings) (now : Int) :
    (∀ raw, verify_token cfg now (.malformed raw) = none) ∧
    (∀ p sig, sig ≠ signPayload cfg.jwt_algorithm cfg.secret_key p →
      verify_token cfg now (.jwt p sig) = none) ∧
    (∀ p sig, p.exp ≤ now → verify_token cfg now (.jwt p sig) = none) ∧
    (∀ s e, cfg.jwt_expiration_hours ≤ 0 →
      verify_token cfg now (create_access_token cfg now s e) = none) := by
  refine ⟨fun raw => rfl, ?_, ?_, ?_⟩
  · intro p sig hsig
    simp [verify_token, hsig]
  · intro p sig hexp
    simp [verify_token]
    intro _
    omega
  · intro s e httl
    simp [verify_token, create_access_token]
    omega

/-- Witness for C4: a malformed token, a token signed under the wrong
secret, an expired token, and a token issued with TTL −1 hour all verify to
`none` under a concrete configuration. -/
theorem verify_token_total_uniform_witness :
    verify_token ⟨"s1", "HS256", 24⟩ 0 (.malformed "garbage") = none ∧
    verify_token ⟨"s1", "HS256", 24⟩ 0
        (.jwt ⟨some "u", some "e", 0, 99⟩ (signPayload "HS256" "other-secret" ⟨some "u", some "e", 0, 99⟩)) = none ∧
    verify_token ⟨"s1", "HS256", 24⟩ 50
        (.jwt ⟨some "u", some "e", 0, 50⟩ (signPayload "HS256" "s1" ⟨some "u", some "e", 0, 50⟩)) = none ∧
    verify_token ⟨"s1", "HS256", -1⟩ 0
        (create_access_token ⟨"s1", "HS256", -1⟩ 0 "u" "e") = none := by
  have h := verify_token_total_uniform ⟨"s1", "HS256", 24⟩ 0
  have h50 := verify_token_total_uniform ⟨"s1", "HS256", 24⟩ 50
  have hneg := verify_token_total_uniform ⟨"s1", "HS256", -1⟩ 0
  exact ⟨h.1 "garbage",
    h.2.1 _ _ (by decide),
    h50.2.2.1 ⟨some "u", some "e", 0, 50⟩ _ (by decide),
    hneg.2.2.2 "u" "e" (by decide)⟩

/-- Claim C2: the Authentication Gate has exactly four outcomes — (1) no
bearer credential rejects with UNAUTHORIZED; (2) a credential whose token
fails verification rejects with UNAUTHORIZED; (3) a valid token whose
payload lacks a usable subject claim (absent or empty) rejects with
UNAUTHORIZED; (4) otherwise the gate yields the payload's subject as the
trusted identity. -/
theorem auth_gate_outcomes (cfg : Settings) (now : Int) :
    (get_current_user cfg now none = .error missingCredentialError) ∧
    (∀ tok, verify_token cfg now tok = none →
      get_current_user cfg now (some tok) = .error invalidTokenError) ∧
    (∀ tok p, verify_token cfg now tok = some p → (p.sub = none ∨ p.sub = some "") →
      get_current_user cfg now (some tok) = .error invalidTokenStructureError) ∧
    (∀ tok p s, verify_token cfg now tok = some p → p.sub = some s → s ≠ "" →
      get_current_user cfg now (some tok) = .ok s) := by
  refine ⟨rfl, ?_, ?_, ?_⟩
  · intro tok hv
    simp [get_current_user, hv]
  · intro tok p hv hsub
    rcases hsub with h | h <;> simp [get_current_user, hv, h]
  · intro tok p s hv hsub hs
    simp [get_current_user, hv, hsub, hs]

/-- Witness for C2 at concrete inputs: a missing credential, a malformed
token, a validly signed token with an empty subject, and a validly signed
token with subject "user-1". -/
theorem auth_gate_outcomes_witness :
    get_current_user ⟨"s1", "HS256", 24⟩ 0 none = .error missingCredentialError ∧
    get_current_user ⟨"s1", "HS256", 24⟩ 0 (some (.malformed "junk")) =
      .error invalidTokenError ∧
    get_current_user ⟨"s1", "HS256", 24⟩ 0
        (some (.jwt ⟨some "", some "e", 0, 9⟩ (signPayload "HS256" "s1" ⟨some "", some "e", 0, 9⟩))) =
      .error invalidTokenStructureError ∧
    get_current_user ⟨"s1", "HS256", 24⟩ 0
        (some (.jwt ⟨some "user-1", some "e", 0, 9⟩ (signPayload "HS256" "s1" ⟨some "user-1", some "e", 0, 9⟩))) =
      .ok "user-1" := by
  have h := auth_gate_outcomes ⟨"s1", "HS256", 24⟩ 0
  exact ⟨h.1,
    h.2.1 _ rfl,
    h.2.2.1 _ ⟨some "", some "e", 0, 9⟩ (by decide) (Or.inr rfl),
    h.2.2.2 _ ⟨some "user-1", some "e", 0, 9⟩ "user-1" (by decide) rfl (by decide)⟩

/-- Claim C6: hashing is salted and non-deterministic across calls — two
calls, drawing distinct fresh salts, produce different opaque hash strings —
yet verification is deterministic: the hashed password verifies, any other
password fails to verify, and a string that is not a well-formed bcrypt
hash makes verify_password return false without raising, indistinguishable
from a mismatch. -/
theorem password_hash_verify_contract (P P2 : String) (s1 s2 : Nat) (raw : String)
    (hsalt : s1 ≠ s2) (hpw : P2 ≠ P) :
    hash_password s1 P ≠ hash_password s2 P ∧
    verify_password P (hash_password s1 P) = true ∧
    verify_password P2 (hash_password s1 P) = false ∧
    verify_password P (.foreign raw) = false := by
  refine ⟨?_, ?_, ?_, rfl⟩
  · intro h
    exact hsalt (congrArg (fun x => match x with
      | OpaqueHash.bcryptFormat _ s _ => s
      | OpaqueHash.foreign _ => 0) h)
  · simp [verify_password, hash_password, checkpw]
  · simp [verify_password, hash_password, checkpw, bcryptDigest]
    intro h
    exact absurd h hpw

/-- Witness for C6 at concrete inputs: distinct salts 1 and 2, password
"hunter22", wrong password "hunter23", and a foreign-format stored hash. -/
theorem password_hash_verify_contract_witness :
    hash_password 1 "hunter22" ≠ hash_password 2 "hunter22" ∧
    verify_password "hunter22" (hash_password 1 "hunter22") = true ∧
    verify_password "hunter23" (hash_password 1 "hunter22") = false ∧
    verify_password "hunter22" (.foreign "not-a-bcrypt-hash") = false :=
  password_hash_verify_contract "hunter22" "hunter23" 1 2 "not-a-bcrypt-hash"
    (by decide) (by decide)

/-- Claim C1: read-one, update and delete all look a task up through the
single conjunctive id+owner query, so a task is returned or mutated only
when some stored row has the requested id AND the requesting identity as
its owner (and the task an update returns is still owned by that identity);
when no row satisfies the conjunction, all three operations produce the one
uniform 404 NOT_FOUND error — the same value whether the task does not
exist at all or exists under a different owner — and leave the store
unchanged. -/
theorem task_owner_isolation (db : List Task) (tid uid : String)
    (req : TaskUpdate) (now : Int) :
    (∀ t, get_task db tid uid = .ok t → t ∈ db ∧ t.id = tid ∧ t.user_id = uid) ∧
    (∀ t db', update_task db tid uid req now = (.ok t, db') →
      t.user_id = uid ∧ ∃ t0, t0 ∈ db ∧ t0.id = tid ∧ t0.user_id = uid) ∧
    (∀ m db', delete_task db tid uid = (.ok m, db') →
      ∃ t0, t0 ∈ db ∧ t0.id = tid ∧ t0.user_id = uid) ∧
    ((∀ t0 ∈ db, ¬(t0.id = tid ∧ t0.user_id = uid)) →
      get_task db tid uid = .error taskNotFoundError ∧
      update_task db tid uid req now = (.error taskNotFoundError, db) ∧
      delete_task db tid uid = (.error taskNotFoundError, db)) := by
  refine ⟨?_, ?_, ?_, ?_⟩
  · intro t h
    unfold get_task at h
    cases hf : findTask db tid uid with
    | none => rw [hf] at h; cases h
    | some t0 =>
        rw [hf] at h
        cases h
        exact findTask_some hf
  · intro t db' h
    unfold update_task at h
    cases hf : findTask db tid uid with
    | none => rw [hf] at h; cases h
    | some t0 =>
        rw [hf] at h
        obtain ⟨hmem, hid, huid⟩ := findTask_some hf
        by_cases he : req.isEmpty
        · simp [he] at h
        · simp only [he, if_false, Bool.false_eq_true, Prod.mk.injEq] at h
          obtain ⟨hok, -⟩ := h
          cases hok
          exact ⟨huid, t0, hmem, hid, huid⟩
  · intro m db' h
    unfold delete_task at h
    cases hf : findTask db tid uid with
    | none => rw [hf] at h; cases h
    | some t0 =>
        obtain ⟨hmem, hid, huid⟩ := findTask_some hf
        exact ⟨t0, hmem, hid, huid⟩
  · intro hnone
    have hf : findTask db tid uid = none := findTask_eq_none.mpr hnone
    exact ⟨by simp [get_task, hf], by simp [update_task, hf], by simp [delete_task, hf]⟩

/-- Witness for C1: a store holding one task owned by "alice"; the
requesting identity "bob" asking for that task id receives the uniform 404
from read, update and delete, with the store untouched. -/
theorem task_owner_isolation_witness :
    get_task [⟨"t1", "alice", some "x", none, none, some false, 0, 0⟩] "t1" "bob" =
      .error taskNotFoundError ∧
    update_task [⟨"t1", "alice", some "x", none, none, some false, 0, 0⟩] "t1" "bob"
        ⟨some (some "y"), none, none, none⟩ 7 =
      (.error taskNotFoundError, [⟨"t1", "alice", some "x", none, none, some false, 0, 0⟩]) ∧
    delete_task [⟨"t1", "alice", some "x", none, none, some false, 0, 0⟩] "t1" "bob" =
      (.error taskNotFoundError, [⟨"t1", "alice", some "x", none, none, some false, 0, 0⟩]) :=
  (task_owner_isolation [⟨"t1", "alice", some "x", none, none, some false, 0, 0⟩]
    "t1" "bob" ⟨some (some "y"), none, none, none⟩ 7).2.2.2 (by decide)

/-- Claim C5: every successfully created task is owned by the trusted
identity — the stored owner identifier equals the authenticated user id for
every possible request body (the request schema carries no owner field, so
the quantification over all request bodies shows no payload can influence
the owner) — and the new row is appended to the store. -/
theorem create_task_owner (db : List Task) (uid : String) (req : TaskCreate)
    (newId : String) (now : Int) :
    ∀ t db', create_task db uid req newId now = (.ok t, db') →
      t.user_id = uid ∧ db' = db ++ [t] := by
  intro t db' h
  unfold create_task at h
  by_cases hc : req.title = "" ∨ pyStrip req.title = ""
  · simp [hc] at h
  · simp only [hc, if_false, Prod.mk.injEq] at h
    obtain ⟨hok, hdb⟩ := h
    cases hok
    exact ⟨rfl, hdb.symm⟩

/-- Witness for C5: creating a task as "alice" from a concrete request body
stores "alice" as the owner. -/
theorem create_task_owner_witness :
    Task.user_id ⟨"t9", "alice", some "Buy milk", none, none, some false, 5, 5⟩ = "alice" ∧
    [] ++ [(⟨"t9", "alice", some "Buy milk", none, none, some false, 5, 5⟩ : Task)] =
      [⟨"t9", "alice", some "Buy milk", none, none, some false, 5, 5⟩] :=
  create_task_owner [] "alice" ⟨"Buy milk", none, none, false⟩ "t9" 5
    ⟨"t9", "alice", some "Buy milk", none, none, some false, 5, 5⟩
    [⟨"t9", "alice", some "Buy milk", none, none, some false, 5, 5⟩]
    (by simp [create_task]; decide)

/-- Claim C7: on every successful update only the fields explicitly
present in the request body change — the id, owner, creation timestamp and
every absent field keep their prior values — while `updated_at` is
refreshed to the current time; and an update request containing zero
fields, sent for an existing owned task, is rejected with the 400
client error and leaves the store unchanged. -/
theorem update_task_frame (db : List Task) (tid uid : String) (req : TaskUpdate)
    (now : Int) :
    (∀ t' db', update_task db tid uid req now = (.ok t', db') →
      ∃ t, findTask db tid uid = some t ∧
        t'.id = t.id ∧
        t'.user_id = t.user_id ∧
        t'.created_at = t.created_at ∧
        t'.updated_at = now ∧
        (req.title = none → t'.title = t.title) ∧
        (req.description = none → t'.description = t.description) ∧
        (req.due_date = none → t'.due_date = t.due_date) ∧
        (req.is_completed = none → t'.is_completed = t.is_completed)) ∧
    (∀ t, findTask db tid uid = some t →
      update_task db tid uid TaskUpdate.empty now = (.error noFieldsError, db)) := by
  constructor
  · intro t' db' h
    unfold update_task at h
    cases hf : findTask db tid uid with
    | none => rw [hf] at h; cases h
    | some t =>
        rw [hf] at h
        by_cases he : req.isEmpty
        · simp [he] at h
        · simp only [he, if_false, Bool.false_eq_true, Prod.mk.injEq] at h
          obtain ⟨hok, -⟩ := h
          cases hok
          refine ⟨t, rfl, rfl, rfl, rfl, rfl, ?_, ?_, ?_, ?_⟩ <;>
            intro hn <;> simp [applyUpdate, hn]
  · intro t hf
    simp [update_task, hf, TaskUpdate.isEmpty, TaskUpdate.empty]

/-- Witness for C7: updating only the completion flag of a stored task
leaves title, description and creation time unchanged and advances
`updated_at` to the request time. -/
theorem update_task_frame_witness :
    Task.id ⟨"t1", "alice", some "x", some "d", none, some true, 0, 9⟩ = "t1" ∧
    Task.title ⟨"t1", "alice", some "x", some "d", none, some true, 0, 9⟩ = some "x" ∧
    Task.created_at ⟨"t1", "alice", some "x", some "d", none, some true, 0, 9⟩ = 0 ∧
    Task.updated_at ⟨"t1", "alice", some "x", some "d", none, some true, 0, 9⟩ = 9 := by
  have h := (update_task_frame [⟨"t1", "alice", some "x", some "d", none, some false, 0, 0⟩]
    "t1" "alice" ⟨none, none, none, some (some true)⟩ 9).1
    ⟨"t1", "alice", some "x", some "d", none, some true, 0, 9⟩
    [⟨"t1", "alice", some "x", some "d", none, some true, 0, 9⟩] rfl
  obtain ⟨t, hfind, hid, huid, hcr, hup, hti, hde, hdu, hco⟩ := h
  have ht : t = ⟨"t1", "alice", some "x", some "d", none, some false, 0, 0⟩ := by
    simpa [findTask] using hfind.symm
  subst ht
  exact ⟨hid, hti rfl, hcr, hup⟩

/-- Claim C8: the login failure outcome when no user record has the given
email is the very same error value — status 401, code INVALID_CREDENTIALS,
message "Invalid email or password" — as the failure outcome when the email
exists but password verification fails, so the two conditions are
observably identical. -/
theorem login_uniform_failure (users : List User) (req : LoginRequest)
    (cfg : Settings) (now : Int) :
    (users.find? (fun u => u.email == req.email) = none →
      login users req cfg now = .error invalidCredentialsError) ∧
    (∀ u, users.find? (fun v => v.email == req.email) = some u →
      verify_password req.password u.password_hash = false →
      login users req cfg now = .error invalidCredentialsError) := by
  constructor
  · intro h
    simp [login, h]
  · intro u hf hv
    simp [login, hf, hv]

/-- Witness for C8: against a store holding one user, the unknown-email
request and the wrong-password request both produce the identical generic
error. -/
theorem login_uniform_failure_witness :
    login [⟨"u1", "a@b.c", hash_password 3 "password1", 0⟩] ⟨"z@b.c", "password1"⟩
        ⟨"s1", "HS256", 24⟩ 0 = .error invalidCredentialsError ∧
    login [⟨"u1", "a@b.c", hash_password 3 "password1", 0⟩] ⟨"a@b.c", "password2"⟩
        ⟨"s1", "HS256", 24⟩ 0 = .error invalidCredentialsError := by
  have h1 := (login_uniform_failure [⟨"u1", "a@b.c", hash_password 3 "password1", 0⟩]
    ⟨"z@b.c", "password1"⟩ ⟨"s1", "HS256", 24⟩ 0).1 (by decide)
  have h2 := (login_uniform_failure [⟨"u1", "a@b.c", hash_password 3 "password1", 0⟩]
    ⟨"a@b.c", "password2"⟩ ⟨"s1", "HS256", 24⟩ 0).2
    ⟨"u1", "a@b.c", hash_password 3 "password1", 0⟩ (by decide) (by decide)
  exact ⟨h1, h2⟩

/-- Claim C9: a registration request whose email (exact, case-sensitive
string comparison) already belongs to a stored user returns the 409
EMAIL_EXISTS conflict with the user store unchanged; and registering a
fresh email succeeds, appending exactly one row, after which registering
the same email again yields EMAIL_EXISTS with no second row written. -/
theorem register_duplicate_atomic (users : List User) (req : RegisterRequest)
    (newId newId2 : String) (salt salt2 : Nat) (cfg : Settings) (now now2 : Int) :
    ((∃ u ∈ users, u.email = req.email) →
      register users req newId salt cfg now = (.error emailExistsError, users)) ∧
    ((¬∃ u ∈ users, u.email = req.email) →
      register users req newId salt cfg now =
        (.ok ⟨⟨newId, req.email⟩, create_access_token cfg now newId req.email⟩,
         users ++ [⟨newId, req.email, hash_password salt req.password, now⟩]) ∧
      register (users ++ [⟨newId, req.email, hash_password salt req.password, now⟩])
          req newId2 salt2 cfg now2 =
        (.error emailExistsError,
         users ++ [⟨newId, req.email, hash_password salt req.password, now⟩])) := by
  constructor
  · rintro ⟨u, hmem, he⟩
    cases hf : users.find? (fun v => v.email == req.email) with
    | none =>
        rw [List.find?_eq_none] at hf
        exact absurd (by simpa using he) (by simpa using hf u hmem)
    | some v =>
        simp [register, hf]
  · intro hne
    have hf : users.find? (fun v => v.email == req.email) = none := by
      rw [List.find?_eq_none]
      intro v hmem hv
      exact hne ⟨v, hmem, by simpa using hv⟩
    refine ⟨by simp [register, hf], ?_⟩
    cases hf2 : (users ++ [(⟨newId, req.email, hash_password salt req.password, now⟩ : User)]).find?
        (fun v => v.email == req.email) with
    | none =>
        rw [List.find?_eq_none] at hf2
        have hlast := hf2 ⟨newId, req.email, hash_password salt req.password, now⟩ (by simp)
        simp at hlast
    | some v =>
        simp [register, hf2]

/-- Witness for C9: registering "a@b.c" into the empty store succeeds and
writes one row; registering "a@b.c" again yields the EMAIL_EXISTS conflict
with the store unchanged. -/
theorem register_duplicate_atomic_witness :
    register [] ⟨"a@b.c", "password1"⟩ "u1" 3 ⟨"s1", "HS256", 24⟩ 0 =
      (.ok ⟨⟨"u1", "a@b.c"⟩, create_access_token ⟨"s1", "HS256", 24⟩ 0 "u1" "a@b.c"⟩,
       [⟨"u1", "a@b.c", hash_password 3 "password1", 0⟩]) ∧
    register [⟨"u1", "a@b.c", hash_password 3 "password1", 0⟩] ⟨"a@b.c", "password1"⟩
        "u2" 4 ⟨"s1", "HS256", 24⟩ 5 =
      (.error emailExistsError, [⟨"u1", "a@b.c", hash_password 3 "password1", 0⟩]) := by
  have h := (register_duplicate_atomic [] ⟨"a@b.c", "password1"⟩ "u1" "u2" 3 4
    ⟨"s1", "HS256", 24⟩ 0 5).2 (by simp)
  simpa using h

/-- Claim C10: a field explicitly present in the update body with value
null counts as provided — a body carrying only an explicit null description
passes the at-least-one-field check, clears the stored description to null
and refreshes `updated_at` — whereas the body with the description (and
every other field) absent is rejected with the 400 zero-fields error. -/
theorem update_null_description (db : List Task) (tid uid : String) (t : Task)
    (now : Int) (h : findTask db tid uid = some t) :
    update_task db tid uid ⟨none, some none, none, none⟩ now =
      (.ok { t with description := none, updated_at := now },
       saveTask db { t with description := none, updated_at := now }) ∧
    update_task db tid uid ⟨none, none, none, none⟩ now =
      (.error noFieldsError, db) := by
  constructor
  · simp [update_task, h, TaskUpdate.isEmpty, applyUpdate]
  · simp [update_task, h, TaskUpdate.isEmpty]

/-- Witness for C10: on a stored task with description "d", the body
consisting solely of an explicit null description clears it and bumps
`updated_at`, while the empty body is rejected. -/
theorem update_null_description_witness :
    update_task [⟨"t1", "alice", some "x", some "d", none, some false, 0, 0⟩]
        "t1" "alice" ⟨none, some none, none, none⟩ 9 =
      (.ok ⟨"t1", "alice", some "x", none, none, some false, 0, 9⟩,
       [⟨"t1", "alice", some "x", none, none, some false, 0, 9⟩]) ∧
    update_task [⟨"t1", "alice", some "x", some "d", none, some false, 0, 0⟩]
        "t1" "alice" ⟨none, none, none, none⟩ 9 =
      (.error noFieldsError,
       [⟨"t1", "alice", some "x", some "d", none, some false, 0, 0⟩]) := by
  have h := update_null_description
    [⟨"t1", "alice", some "x", some "d", none, some false, 0, 0⟩] "t1" "alice"
    ⟨"t1", "alice", some "x", some "d", none, some false, 0, 0⟩ 9 (by decide)
  simpa [saveTask] using h

end TodoApp
